import Mathlib

/-!
Formal model of the analytics computation engine of a fleet-tracking backend.

Source of truth: src/backend/src/services/analytics/utils/dataProcessing.py
(functions process_location_data, calculate_fleet_metrics,
analyze_delivery_efficiency, detect_anomalies, _categorize_anomalies), plus the
population standard deviation reported by
src/backend/src/services/analytics/models/analyticsModel.py
(AnalyticsModel.get_fleet_performance, MongoDB $stdDevPop accumulator).

Modelling conventions used throughout this file:

* Python floats are modelled by exact rationals; binary rounding of float
  arithmetic is not modelled.  The properties under study concern branch
  structure, grouping structure and exact degenerate cases.
* IEEE NaN is modelled by Option with none standing for NaN.  Every IEEE
  comparison against NaN is false, which the none branches below reproduce.
* Square roots of rationals are irrational in general.  Functions that the
  source feeds through np.sqrt or the scipy standard deviation therefore take an
  explicit square-root parameter f : ℚ → ℚ.  Universal theorems quantify over
  every f, hence hold in particular for the true square root.  Concrete
  evaluations instantiate f with the finite table sqrtHat below together with
  explicit conjuncts proving (sqrtHat q) ^ 2 = q and 0 ≤ sqrtHat q for every
  radicand occurring in that concrete input, so the table provably agrees with
  the true square root everywhere it is used.  The two standard deviations that
  a claim compares as real numbers (pandasGroupStd, mongoStdDevPop) are instead
  modelled over ℝ with Real.sqrt.
* pandas sorts group keys in its output; bucket and vehicle key lists are
  modelled with List.dedup, which preserves the set of keys but not pandas
  ordering.  All statistics computed from a group are order-insensitive
  (multiset functions), and no statement below depends on key ordering.
-/

/-- Mean of a list of rationals; none models the NaN that pandas returns for the
mean of an empty series. -/
def listMeanQ : List ℚ → Option ℚ
  | [] => none
  | xs => some (xs.sum / xs.length)

/-- Mean with NaN entries skipped, as pandas mean with skipna (the default)
behaves on a series containing NaN: defined entries are averaged, and an
all-NaN series yields NaN. -/
def optMean (l : List (Option ℚ)) : Option ℚ :=
  listMeanQ (l.filterMap id)

/-- Population variance, denominator n, as used by scipy.stats.zscore (its
default ddof is 0).  On the empty list this is 0/0 = 0 in ℚ; the value is never
used for an empty list. -/
def popVar (xs : List ℚ) : ℚ :=
  ((xs.map (fun x => (x - xs.sum / xs.length) ^ 2)).sum) / xs.length

/-- Sample variance, denominator n - 1, as used by pandas Series.std (its
default ddof is 1).  none models the NaN that pandas returns for groups with
fewer than two samples. -/
def sampleVar (xs : List ℚ) : Option ℚ :=
  if xs.length ≤ 1 then none
  else some (((xs.map (fun x => (x - xs.sum / xs.length) ^ 2)).sum) / ((xs.length : ℚ) - 1))

/-- Insertion step for the generic sort below: the new element goes after every
element that is ≤ it, so repeated insertion from the left is stable. -/
def insertLe {α : Type} (le : α → α → Bool) (r : α) : List α → List α
  | [] => [r]
  | s :: rest => if le s r then s :: insertLe le r rest else r :: s :: rest

/-- Stable insertion sort.  pandas sort_values uses quicksort whose tie order
is unspecified; this model fixes ties to input order.  No statement below
depends on the order of tied elements. -/
def sortLe {α : Type} (le : α → α → Bool) (l : List α) : List α :=
  l.foldl (fun acc r => insertLe le r acc) []

/-- Median as pandas computes it: sort ascending, take the middle element for
odd length and the average of the two middle elements for even length; NaN
(none) for an empty series. -/
def pandasMedian (xs : List ℚ) : Option ℚ :=
  let s := sortLe (fun a b => decide (a ≤ b)) xs
  let n := s.length
  if n = 0 then none
  else if n % 2 = 1 then some (s.getD (n / 2) 0)
  else some ((s.getD (n / 2 - 1) 0 + s.getD (n / 2) 0) / 2)

/-- Minimum of a list; none for the empty list. -/
def listMinQ : List ℚ → Option ℚ
  | [] => none
  | x :: xs => some (xs.foldl min x)

/-- Maximum of a list; none for the empty list. -/
def listMaxQ : List ℚ → Option ℚ
  | [] => none
  | x :: xs => some (xs.foldl max x)

/-- Model of scipy.stats.zscore over a column: (x - mean) / std with ddof 0,
where std = sqrt of popVar is represented through the square-root parameter f.
When the column has zero variance the float computation is 0/0 = NaN for every
row (scipy emits the NaN column); this is the none branch.  When the variance
is nonzero, every deviation x - mean is divided by the same value f (popVar xs),
exactly as the float code divides by the one standard deviation of the column.
-/
def zscoreList (f : ℚ → ℚ) (xs : List ℚ) : List (Option ℚ) :=
  xs.map (fun x =>
    if popVar xs = 0 then none
    else some ((x - xs.sum / xs.length) / f (popVar xs)))

/-- Rounding half to even, as Python round does on the exact value. -/
def roundHalfEven (q : ℚ) : ℤ :=
  if q - ⌊q⌋ < 1 / 2 then ⌊q⌋
  else if 1 / 2 < q - ⌊q⌋ then ⌊q⌋ + 1
  else if ⌊q⌋ % 2 = 0 then ⌊q⌋ else ⌊q⌋ + 1

/-- Model of round(x, 2). -/
def roundTo2 (q : ℚ) : ℚ :=
  (roundHalfEven (q * 100) : ℚ) / 100

/-- Finite square-root table used to instantiate the square-root parameter in
concrete evaluations.  Every concrete statement that depends on a table entry
carries explicit conjuncts proving that the entry squares back to its radicand
and is nonnegative, so on those radicands the table agrees with the true square
root.  All other inputs map to 0 and are never relied upon. -/
def sqrtHat (q : ℚ) : ℚ :=
  if q = 1 then 1
  else if q = 4 then 2
  else if q = 25 then 5
  else if q = 69705801 / 2500 then 8349 / 50
  else 0

/-- Input row of process_location_data: one raw location sample.  Timestamps
are rational seconds (pandas converts timestamp differences to float seconds
via dt.total_seconds). -/
structure LocationRow where
  vehicle_id : ℕ
  timestamp : ℚ
  latitude : ℚ
  longitude : ℚ
deriving DecidableEq

/-- Output row of process_location_data, the columns the source selects at the
end: vehicle_id, timestamp, speed, distance, acceleration.  Acceleration is
Option: none models the NaN of a first-of-vehicle diff or an undefined float
division (the source casts to float32, a precision detail not modelled). -/
structure DerivedRow where
  vehicle_id : ℕ
  timestamp : ℚ
  speed : ℚ
  distance : ℚ
  acceleration : Option ℚ
deriving DecidableEq

/-- The calculation_options dictionary of process_location_data.  A key absent
from the dictionary is none; calculation_options.get with a default is getD.
The source never reads any key other than remove_outliers; outlier_z_threshold
is carried because callers may pass it. -/
structure CalcOptions where
  remove_outliers : Option Bool
  outlier_z_threshold : Option ℚ
deriving DecidableEq

/-- Sorting by timestamp, the first step of process_location_data
(location_data.sort_values on the timestamp column). -/
def sortByTs (rows : List LocationRow) : List LocationRow :=
  sortLe (fun a b => decide (a.timestamp ≤ b.timestamp)) rows

/-- Row access by position with a default, for positional formulas below. -/
def rowAt (l : List LocationRow) (i : ℕ) : LocationRow :=
  (l[i]?).getD ⟨0, 0, 0, 0⟩

/-- Index of the previous row of the same vehicle anywhere earlier in the
sorted frame, as pandas groupby(vehicle_id).diff() pairs rows: the group
predecessor need not be the adjacent row. -/
def prevIdxSameVid (l : List LocationRow) (i : ℕ) : Option ℕ :=
  ((List.range i).filter
    (fun j => (rowAt l j).vehicle_id == (rowAt l i).vehicle_id)).getLast?

/-- The time_diff column: groupby(vehicle_id) diff of timestamps in seconds;
none is the NaN of a row with no same-vehicle predecessor. -/
def timeDiffAt (l : List LocationRow) (i : ℕ) : Option ℚ :=
  (prevIdxSameVid l i).map (fun j => (rowAt l i).timestamp - (rowAt l j).timestamp)

/-- The boolean mask of the source, location_data.vehicle_id.shift() ==
location_data.vehicle_id: true at i exactly when the adjacent previous row in
the sorted frame is the same vehicle (false at row 0, where shift gives NaN).
-/
def maskAt (l : List LocationRow) (i : ℕ) : Bool :=
  match i with
  | 0 => false
  | Nat.succ j => (rowAt l j).vehicle_id == (rowAt l (j + 1)).vehicle_id

/-- Number of true entries of the mask over the frame, mask.sum in numpy
terms, written structurally over the list of rows: one count for every
adjacent pair with equal vehicle ids. -/
def adjSameCount : List LocationRow → ℕ
  | [] => 0
  | [_] => 0
  | a :: b :: rest =>
    (if a.vehicle_id = b.vehicle_id then 1 else 0) + adjSameCount (b :: rest)

/-- Squared planar displacement between adjacent rows i - 1 and i of the
sorted frame, the summand of np.sum((coords[1:] - coords[:-1]) ** 2, axis=1).
-/
def dsqAt (l : List LocationRow) (i : ℕ) : ℚ :=
  match i with
  | 0 => 0
  | Nat.succ j =>
    ((rowAt l (j + 1)).latitude - (rowAt l j).latitude) ^ 2 +
    ((rowAt l (j + 1)).longitude - (rowAt l j).longitude) ^ 2

/-- The distance value at position i after the masked numpy assignment
distances[mask] = sqrt(...) * 111.32 succeeds: positions with a true mask get
the adjacent-pair displacement times 111.32 (111.32 = 11132/100), the rest
keep the zero initialisation.  The assignment succeeds when the mask has
exactly length - 1 true entries, and also on two-row frames, where the
one-element right-hand side is broadcast over the selection (see
process_location_data below); in every successful case the element-to-position
correspondence is that masked position i gets the pair (i-1, i) - on a
two-row frame the only possible masked position is 1 and the broadcast value
is that pair distance - which is what this definition states for every masked
position. -/
def distAt (f : ℚ → ℚ) (l : List LocationRow) (i : ℕ) : ℚ :=
  if maskAt l i then f (dsqAt l i) * (11132 / 100) else 0

/-- The speed column: np.where(time_diff > 0, distances / time_diff * 3600, 0).
NaN time_diff (no predecessor) and time_diff = 0 both take the 0 branch, since
an IEEE comparison against NaN is false. -/
def speedAt (f : ℚ → ℚ) (l : List LocationRow) (i : ℕ) : ℚ :=
  match timeDiffAt l i with
  | some t => if 0 < t then distAt f l i / t * 3600 else 0
  | none => 0

/-- The speed column as a list over the whole sorted frame. -/
def speedList (f : ℚ → ℚ) (l : List LocationRow) : List ℚ :=
  (List.range l.length).map (speedAt f l)

/-- The acceleration column: groupby(vehicle_id) diff of speed divided by the
time_diff of the current row.  none models NaN: either no same-vehicle
predecessor (diff NaN), or division of the speed difference by a zero
time_diff, whose float result (NaN or signed infinity) no statement below
distinguishes from NaN.  When this column is computed the frame still contains
every row (see process_location_data below), so indices refer to the full
sorted frame. -/
def accelAt (f : ℚ → ℚ) (l : List LocationRow) (i : ℕ) : Option ℚ :=
  match prevIdxSameVid l i, timeDiffAt l i with
  | some j, some t =>
    if t = 0 then none else some ((speedAt f l i - speedAt f l j) / t)
  | _, _ => none

/-- The survival flags of the outlier filter step.  With outlier removal on,
row i survives location_data[z_scores < 3] exactly when its speed z-score is
defined and has absolute value below the fixed literal 3 (a NaN z-score
compares false and the row is dropped); with outlier removal off every row
survives.  The z-score threshold option of the caller is not consulted
anywhere in the source. -/
def keepFlags (f : ℚ → ℚ) (l : List LocationRow) (ro : Bool) : List Bool :=
  if ro then
    (zscoreList f (speedList f l)).map (fun z =>
      match z with
      | some z0 => decide (|z0| < 3)
      | none => false)
  else List.replicate l.length true

/-- Model of process_location_data.  Pipeline of the source, in order: sort by
timestamp; compute time_diff by vehicle; run the masked distance assignment
distances[mask] = sqrt(...) * 111.32, whose right-hand side has length
length - 1 (one entry per adjacent pair): numpy boolean-mask assignment
succeeds when the right-hand side length equals the number of true mask
entries, or when it is 1, in which case the single value is broadcast over
the selection (so a two-row frame never fails here - with two rows of
different vehicles the mask is all false and the assignment writes nothing);
any other mismatch - a frame of three or more rows with adjacent rows of
different vehicles - raises the numpy cannot-assign error.  Then compute
speed; drop outlier rows when calculation_options.get(remove_outliers, True)
holds; then assign the distance column, which pandas rejects with a
length-mismatch error whenever the filter dropped at least one row (the
full-length numpy array no longer matches the filtered index); finally
compute acceleration and return the selected columns.  Reaching the success
branch therefore implies no row was dropped, so the output lists every row of
the sorted frame.  Both error branches surface as the ValueError the source
raises; the message strings stand for the wrapped numpy and pandas messages.
-/
def process_location_data (f : ℚ → ℚ) (rows : List LocationRow)
    (opts : CalcOptions) : Except String (List DerivedRow) :=
  let l := sortByTs rows
  if adjSameCount l ≠ l.length - 1 ∧ l.length - 1 ≠ 1 then
    Except.error "Error processing location data: boolean array indexing assignment mismatch"
  else
    let flags := keepFlags f l (opts.remove_outliers.getD true)
    if flags.count true ≠ l.length then
      Except.error "Error processing location data: Length of values does not match length of index"
    else
      Except.ok ((List.range l.length).map (fun i =>
        ⟨(rowAt l i).vehicle_id, (rowAt l i).timestamp,
         speedAt f l i, distAt f l i, accelAt f l i⟩))

/-- The pipeline with the outlier filter step skipped entirely, used to state
that passing remove_outliers = false skips filtering; the masked distance
assignment behaves as in process_location_data. -/
def processSkippingOutlierFilter (f : ℚ → ℚ) (rows : List LocationRow) :
    Except String (List DerivedRow) :=
  let l := sortByTs rows
  if adjSameCount l ≠ l.length - 1 ∧ l.length - 1 ≠ 1 then
    Except.error "Error processing location data: boolean array indexing assignment mismatch"
  else
    Except.ok ((List.range l.length).map (fun i =>
      ⟨(rowAt l i).vehicle_id, (rowAt l i).timestamp,
       speedAt f l i, distAt f l i, accelAt f l i⟩))

/-- Output record of detect_anomalies: the original row (its numeric values in
column order), the confidence score and the anomaly category. -/
structure AnomalyRecord where
  row : List ℚ
  confidence_score : Option ℚ
  anomaly_type : String
deriving DecidableEq

/-- Number of rows of a column-oriented table (all numeric columns of the
operational data frame, in original column order).  Statements below use
rectangular tables, where every column has this length. -/
def tableNumRows (table : List (String × List ℚ)) : ℕ :=
  match table with
  | [] => 0
  | c :: _ => c.2.length

/-- The z_scores frame of detect_anomalies: per column, np.abs of the scipy
z-scores (the source stores absolute values). -/
def absZTable (f : ℚ → ℚ) (table : List (String × List ℚ)) :
    List (String × List (Option ℚ)) :=
  table.map (fun c => (c.1, (zscoreList f c.2).map (Option.map (fun z => |z|))))

/-- One comparison of the z_scores frame against the threshold: strict
greater-than, false on NaN (none), as the float comparison behaves. -/
def zExceeds (z : Option ℚ) (t : ℚ) : Bool :=
  match z with
  | some z0 => decide (t < z0)
  | none => false

/-- Row selector of detect_anomalies: (z_scores > threshold).any(axis=1). -/
def rowFlagged (f : ℚ → ℚ) (table : List (String × List ℚ)) (t : ℚ) (i : ℕ) :
    Bool :=
  (absZTable f table).any (fun c => zExceeds ((c.2[i]?).getD none) t)

/-- Positions of the rows the boolean indexing keeps, in frame order. -/
def flaggedIdx (f : ℚ → ℚ) (table : List (String × List ℚ)) (t : ℚ) :
    List ℕ :=
  (List.range (tableNumRows table)).filter (rowFlagged f table t)

/-- The values of row i across the columns, in original column order. -/
def rowValsAt (table : List (String × List ℚ)) (i : ℕ) : List ℚ :=
  table.map (fun c => (c.2[i]?).getD 0)

/-- The confidence score: z_scores.max(axis=1) on the flagged rows, pandas max
with skipna - the largest defined absolute z-score of the row, NaN (none) when
every column of the row is NaN. -/
def confidenceAt (f : ℚ → ℚ) (table : List (String × List ℚ)) (i : ℕ) :
    Option ℚ :=
  listMaxQ ((absZTable f table).filterMap (fun c => (c.2[i]?).getD none))

/-- Names of the columns whose absolute z-score at row i exceeds the
threshold, in original column order (row[row > threshold].index.tolist() in
the source). -/
def flaggedColNames (f : ℚ → ℚ) (table : List (String × List ℚ)) (t : ℚ)
    (i : ℕ) : List String :=
  ((absZTable f table).filter (fun c => zExceeds ((c.2[i]?).getD none) t)).map
    (fun c => c.1)

/-- Model of _categorize_anomalies: one category string per row of the full
frame, "Anomaly in: " followed by the comma-joined exceeding column names for
flagged rows, "Normal" otherwise. -/
def categorizeAnomalies (f : ℚ → ℚ) (table : List (String × List ℚ))
    (t : ℚ) : List String :=
  (List.range (tableNumRows table)).map (fun i =>
    if rowFlagged f table t i then
      "Anomaly in: " ++ String.intercalate ", " (flaggedColNames f table t i)
    else "Normal")

/-- Model of detect_anomalies: keep the flagged rows, attach the confidence
score, and attach the category by positional alignment - the category series
produced by _categorize_anomalies has a fresh range index, and assigning it to
the filtered frame aligns the original row position i of each kept row with
entry i of the series (the operational frame carries the default range
index). -/
def detect_anomalies (f : ℚ → ℚ) (table : List (String × List ℚ)) (t : ℚ) :
    List AnomalyRecord :=
  (flaggedIdx f table t).map (fun i =>
    ⟨rowValsAt table i, confidenceAt f table i,
     (categorizeAnomalies f table t).getD i "Normal"⟩)

/-- One delivery record of analyze_delivery_efficiency, with the columns the
function reads. -/
structure DeliveryRecord where
  delivery_time : ℚ
  actual_time : ℚ
  planned_time : ℚ
  distance : ℚ
  actual_distance : ℚ
  planned_distance : ℚ
  fuel_consumption : ℚ
  route_id : ℕ
  stop_count : ℚ
deriving DecidableEq

/-- The on_time_percentage statistic: mean of the indicator actual_time ≤
planned_time, times 100; NaN (none) on an empty batch. -/
def onTimePercentage (data : List DeliveryRecord) : Option ℚ :=
  (listMeanQ (data.map (fun r => if r.actual_time ≤ r.planned_time then 1 else 0))).map
    (fun m => m * 100)

/-- The distance_utilization statistic: mean of actual_distance /
planned_distance, times 100; NaN (none) on an empty batch.  A zero
planned_distance would give a float infinity in the source; the rational
division by zero gives 0 instead, and no statement below exercises a zero
planned_distance. -/
def distanceUtilization (data : List DeliveryRecord) : Option ℚ :=
  (listMeanQ (data.map (fun r => r.actual_distance / r.planned_distance))).map
    (fun m => m * 100)

/-- The three z-scored feature columns of the scores frame, in frame order:
delivery_time, distance, fuel_consumption. -/
def featureCols (data : List DeliveryRecord) : List (List ℚ) :=
  [data.map (fun r => r.delivery_time),
   data.map (fun r => r.distance),
   data.map (fun r => r.fuel_consumption)]

/-- One entry of scores.mean(): the pandas column mean of a z-scored feature
column, skipping NaN entries; an all-NaN column (zero variance) yields NaN. -/
def scoreColMean (f : ℚ → ℚ) (xs : List ℚ) : Option ℚ :=
  optMean (zscoreList f xs)

/-- Shape class of one argument handed to np.mean when the source calls it on
a Python list: a float scalar (shape ()), or a one-dimensional pandas series
of a given length (shape (k)).  Scalar and series entries are Option ℚ with
none for NaN. -/
inductive NpValue where
  | scalar (q : Option ℚ)
  | vector (entries : List (Option ℚ))
deriving DecidableEq

/-- The shape of an np.mean argument: none for a scalar, some k for a
length-k series. -/
def npShape : NpValue → Option ℕ
  | NpValue.scalar _ => none
  | NpValue.vector es => some es.length

/-- The float entries of one np.mean argument, flattened. -/
def npEntries : NpValue → List (Option ℚ)
  | NpValue.scalar q => [q]
  | NpValue.vector es => es

/-- Mean of float entries as np.mean computes it on a well-shaped array: NaN
propagates (np.mean does not skip NaN), and the mean of no entries is NaN. -/
def npMeanFlat (l : List (Option ℚ)) : Option ℚ :=
  if l.isEmpty then none
  else if l.any (fun e => e.isNone) then none
  else some ((l.filterMap id).sum / l.length)

/-- Model of np.mean applied to a Python list of scalars and series under the
pinned numpy 1.24: np.asarray first builds an array from the nested list,
which requires every element to have the same shape; a ragged mix - a scalar
next to a series, or series of different lengths - raises ValueError (the
ragged-array-creation deprecation that became an error in numpy 1.24).  On a
rectangular argument list the mean of all entries is returned. -/
def npMean (args : List NpValue) : Except String (Option ℚ) :=
  if (args.map npShape).dedup.length ≤ 1 then
    Except.ok (npMeanFlat (args.flatMap npEntries))
  else
    Except.error "setting an array element with a sequence. The requested array has an inhomogeneous shape after 1 dimensions."

/-- The argument list of the np.mean call that computes overall_efficiency in
analyze_delivery_efficiency: the scalar on_time_percentage / 100, the scalar
distance_utilization / 100, and 1 - abs(scores.mean()) - a length-3 series,
one entry per z-scored feature column, since scores.mean() is the series of
the three per-column z-score means. -/
def npMeanArgs (f : ℚ → ℚ) (data : List DeliveryRecord) : List NpValue :=
  [NpValue.scalar ((onTimePercentage data).map (fun p => p / 100)),
   NpValue.scalar ((distanceUtilization data).map (fun u => u / 100)),
   NpValue.vector ((featureCols data).map (fun xs =>
     (scoreColMean f xs).map (fun m => 1 - |m|)))]

/-- Model of analyze_delivery_efficiency, to the extent the claims reach it:
the delivery statistics and route efficiency blocks are computed (the two
entries that feed the overall score are onTimePercentage and
distanceUtilization above), the scores frame of the three z-scored feature
columns is built, and overall_efficiency is np.mean of the list
[on_time_percentage / 100, distance_utilization / 100,
1 - abs(scores.mean())], whose third entry is a length-3 series next to two
scalars.  Under the pinned numpy 1.24 that np.mean call raises for every
batch; the raise is wrapped by the catch-all into the ValueError whose
message the error string stands for, and no overall_efficiency_score is ever
returned.  On the (unreachable) rectangular path the function would return
round(overall_efficiency * 100, 2); no clamping exists anywhere. -/
def analyze_delivery_efficiency (f : ℚ → ℚ) (data : List DeliveryRecord) :
    Except String (Option ℚ) :=
  match npMean (npMeanArgs f data) with
  | Except.error e => Except.error ("Error analyzing delivery efficiency: " ++ e)
  | Except.ok m => Except.ok (m.map (fun r => roundTo2 (r * 100)))

/-- One row of the fleet_data frame of calculate_fleet_metrics: timestamp
(integer epoch seconds), vehicle id, and the value of the selected metric
column (the metric_type column of the frame is modelled as this value field).
-/
structure MetricRow where
  timestamp : ℤ
  vehicle_id : ℕ
  value : ℚ
deriving DecidableEq

/-- Length in seconds of an aggregation period string.  The pandas Grouper
anchors weekly buckets to week ends and monthly buckets to calendar month
ends; the model abstracts all four frequencies as fixed-length floors (a month
as 30 days).  No statement below depends on where bucket boundaries fall, only
on the grouping structure itself. -/
def periodSeconds (p : String) : ℤ :=
  if p = "1H" then 3600
  else if p = "1D" then 86400
  else if p = "1W" then 604800
  else 2592000

/-- Bucket key of a timestamp: the floor of the timestamp to the period. -/
def bucketOf (p : String) (ts : ℤ) : ℤ :=
  (ts.ediv (periodSeconds p)) * periodSeconds p

/-- The distinct bucket keys present in the frame. -/
def bucketKeys (p : String) (rows : List MetricRow) : List ℤ :=
  (rows.map (fun r => bucketOf p r.timestamp)).dedup

/-- The distinct vehicles contributing at least one row to a bucket. -/
def vehiclesIn (p : String) (rows : List MetricRow) (b : ℤ) : List ℕ :=
  ((rows.filter (fun r => bucketOf p r.timestamp == b)).map
    (fun r => r.vehicle_id)).dedup

/-- The metric values of one (bucket, vehicle) group, in frame order. -/
def valuesIn (p : String) (rows : List MetricRow) (b : ℤ) (v : ℕ) : List ℚ :=
  (rows.filter (fun r =>
    bucketOf p r.timestamp == b && r.vehicle_id == v)).map (fun r => r.value)

/-- The level-1 grouped series of calculate_fleet_metrics:
fleet_data.groupby([Grouper(timestamp, freq), vehicle_id])[metric] followed by
one aggregation - one entry per (bucket, vehicle) group, grouped consecutively
by bucket. -/
def groupSeries {α : Type} (p : String) (rows : List MetricRow)
    (agg : List ℚ → α) : List ((ℤ × ℕ) × α) :=
  (bucketKeys p rows).flatMap (fun b =>
    (vehiclesIn p rows b).map (fun v => ((b, v), agg (valuesIn p rows b v))))

/-- The bucket keys of a level-1 series, as groupby(level=0) sees them. -/
def seriesKeys {α : Type} (s : List ((ℤ × ℕ) × α)) : List ℤ :=
  (s.map (fun e => e.1.1)).dedup

/-- The level-0 rollup of calculate_fleet_metrics: group a level-1 series by
its bucket key and aggregate the defined (non-NaN) values of each bucket, as
the pandas aggregations do with skipna. -/
def rollupBy {α β : Type} (agg2 : List α → β) (s : List ((ℤ × ℕ) × Option α)) :
    List (ℤ × β) :=
  (seriesKeys s).map (fun b =>
    (b, agg2 ((s.filter (fun e => e.1.1 == b)).filterMap (fun e => e.2))))

/-- The mean statistic: grouped.mean().groupby(level=0).mean(). -/
def fleetMean (p : String) (rows : List MetricRow) : List (ℤ × Option ℚ) :=
  rollupBy listMeanQ (groupSeries p rows listMeanQ)

/-- The median statistic: grouped.median().groupby(level=0).median() - the
median of the vehicle-level medians. -/
def fleetMedian (p : String) (rows : List MetricRow) : List (ℤ × Option ℚ) :=
  rollupBy pandasMedian (groupSeries p rows pandasMedian)

/-- The min statistic: grouped.min().groupby(level=0).min(). -/
def fleetMin (p : String) (rows : List MetricRow) : List (ℤ × Option ℚ) :=
  rollupBy listMinQ (groupSeries p rows listMinQ)

/-- The max statistic: grouped.max().groupby(level=0).max(). -/
def fleetMax (p : String) (rows : List MetricRow) : List (ℤ × Option ℚ) :=
  rollupBy listMaxQ (groupSeries p rows listMaxQ)

/-- The vehicle_count statistic:
grouped.count().groupby(level=0).count() - the number of (bucket, vehicle)
groups of the bucket, since the inner per-group counts are never NaN. -/
def fleetVehicleCount (p : String) (rows : List MetricRow) : List (ℤ × ℕ) :=
  rollupBy List.length (groupSeries p rows (fun xs => some ((xs.length : ℚ))))

/-- The per-group standard deviation of calculate_fleet_metrics:
pandas GroupBy.std with its default ddof = 1, the square root of the sample
variance; NaN (none) for a group with fewer than two samples. -/
noncomputable def pandasGroupStd (xs : List ℚ) : Option ℝ :=
  (sampleVar xs).map (fun v : ℚ => Real.sqrt ((v : ℝ)))

/-- Mean of a list of reals; none for the empty list, as listMeanQ. -/
noncomputable def listMeanR : List ℝ → Option ℝ
  | [] => none
  | xs => some (xs.sum / xs.length)

/-- The std statistic: grouped.std().groupby(level=0).mean() - the mean of the
defined vehicle-level sample standard deviations (single-sample vehicles give
NaN and are skipped by the skipna mean). -/
noncomputable def fleetStd (p : String) (rows : List MetricRow) :
    List (ℤ × Option ℝ) :=
  rollupBy listMeanR (groupSeries p rows pandasGroupStd)

/-- The population standard deviation that
AnalyticsModel.get_fleet_performance reports: the MongoDB $stdDevPop
accumulator, square root of the population variance (denominator n). -/
noncomputable def mongoStdDevPop (xs : List ℚ) : ℝ :=
  Real.sqrt ((popVar xs : ℝ))

/-- The recognised metric type strings, METRIC_TYPES.values() of the source.
-/
def validMetricTypes : List String :=
  ["vehicle_speed", "distance_covered", "fuel_consumption", "idle_time",
   "delivery_time"]

/-- The recognised aggregation period strings, AGGREGATION_PERIODS.values()
of the source. -/
def validAggregationPeriods : List String :=
  ["1H", "1D", "1W", "1M"]

/-- The statistics block of the result of calculate_fleet_metrics. -/
structure FleetStatistics where
  mean : List (ℤ × Option ℚ)
  median : List (ℤ × Option ℚ)
  std : List (ℤ × Option ℝ)
  minimum : List (ℤ × Option ℚ)
  maximum : List (ℤ × Option ℚ)
  vehicle_count : List (ℤ × ℕ)

/-- Model of calculate_fleet_metrics: validate metric_type against the
recognised metric types and aggregation_period against the recognised period
strings, rejecting unknown values before any grouping or statistic is touched
(both raises are re-raised by the catch-all as a ValueError whose message the
error strings stand for); on valid input return the aggregation period, the
metric type and the six statistics. -/
noncomputable def calculate_fleet_metrics (rows : List MetricRow)
    (metric_type : String) (aggregation_period : String) :
    Except String (String × String × FleetStatistics) :=
  if metric_type ∉ validMetricTypes then
    Except.error ("Error calculating fleet metrics: Invalid metric type: " ++ metric_type)
  else if aggregation_period ∉ validAggregationPeriods then
    Except.error ("Error calculating fleet metrics: Invalid aggregation period: " ++ aggregation_period)
  else
    Except.ok (aggregation_period, metric_type,
      ⟨fleetMean aggregation_period rows,
       fleetMedian aggregation_period rows,
       fleetStd aggregation_period rows,
       fleetMin aggregation_period rows,
       fleetMax aggregation_period rows,
       fleetVehicleCount aggregation_period rows⟩)

/-- Concrete delivery batch with full on-time performance and a large
distance overshoot (actual_distance three times planned_distance), used to
evaluate the efficiency score on inputs that push the raw formula above 100.
-/
def overshootBatch : List DeliveryRecord :=
  [⟨1, 1, 2, 1, 3, 1, 1, 0, 0⟩, ⟨3, 1, 2, 3, 3, 1, 3, 0, 0⟩]

/-- Concrete metric frame: one hourly bucket, three vehicles with one sample
each, values 0, 0 and 9, so the vehicle medians are 0, 0, 9. -/
def threeVehicleBatch : List MetricRow :=
  [⟨0, 1, 0⟩, ⟨1, 2, 0⟩, ⟨2, 3, 9⟩]

/-- Concrete location batch: one vehicle, ten samples one hour apart, the
first nine at the same point and the tenth displaced five degrees of
latitude.  The ten derived speeds are nine zeros and one 556.6 km/h, whose
z-scores are nine times -1/3 and one exact 3. -/
def tenSampleBatch : List LocationRow :=
  [⟨1, 0, 0, 0⟩, ⟨1, 3600, 0, 0⟩, ⟨1, 7200, 0, 0⟩, ⟨1, 10800, 0, 0⟩,
   ⟨1, 14400, 0, 0⟩, ⟨1, 18000, 0, 0⟩, ⟨1, 21600, 0, 0⟩, ⟨1, 25200, 0, 0⟩,
   ⟨1, 28800, 0, 0⟩, ⟨1, 32400, 5, 0⟩]

/-- Concrete single-column operational table: four values 0 and one value 5,
whose absolute z-scores are four times 1/2 and one exact 2. -/
def speedTable : List (String × List ℚ) :=
  [("speed", [0, 0, 0, 0, 5])]

lemma listMeanQ_eq (xs : List ℚ) (h : xs ≠ []) :
    listMeanQ xs = some (xs.sum / xs.length) := by
  cases xs with
  | nil => exact absurd rfl h
  | cons a t => rfl

lemma sum_map_sub_const (xs : List ℚ) (c : ℚ) :
    (xs.map (fun x => x - c)).sum = xs.sum - xs.length * c := by
  induction xs with
  | nil => simp
  | cons a t ih =>
    simp only [List.map_cons, List.sum_cons, ih, List.length_cons]
    push_cast
    ring

lemma sum_map_sub_mean (xs : List ℚ) (h : xs ≠ []) :
    (xs.map (fun x => x - xs.sum / xs.length)).sum = 0 := by
  have hn : ((xs.length : ℚ)) ≠ 0 :=
    Nat.cast_ne_zero.mpr (fun h0 => h (List.length_eq_zero.mp h0))
  rw [sum_map_sub_const]
  field_simp

lemma sum_map_div_const (xs : List ℚ) (g : ℚ → ℚ) (c : ℚ) :
    (xs.map (fun x => g x / c)).sum = (xs.map g).sum / c := by
  induction xs with
  | nil => simp
  | cons a t ih => simp [ih, add_div]

lemma popVar_replicate (n : ℕ) (c : ℚ) : popVar (List.replicate n c) = 0 := by
  cases n with
  | zero => simp [popVar]
  | succ m =>
    have hn : ((m : ℚ) + 1) ≠ 0 := by positivity
    simp only [popVar, List.map_replicate, List.sum_replicate, List.length_replicate,
      nsmul_eq_mul]
    have hc : c - ((m : ℚ) + 1) * c / ((m : ℚ) + 1) = 0 := by field_simp
    rw [show ((Nat.succ m : ℕ) : ℚ) = (m : ℚ) + 1 by push_cast; ring] at *
    rw [hc]
    simp

lemma popVar_singleton (x : ℚ) : popVar [x] = 0 := by
  simpa using popVar_replicate 1 x

lemma zscoreList_replicate (f : ℚ → ℚ) (n : ℕ) (c : ℚ) :
    zscoreList f (List.replicate n c) = List.replicate n none := by
  simp [zscoreList, popVar_replicate, List.map_replicate]

lemma scoreColMean_eq_zero (f : ℚ → ℚ) (xs : List ℚ) (h : popVar xs ≠ 0) :
    scoreColMean f xs = some 0 := by
  have hne : xs ≠ [] := by
    rintro rfl
    simp [popVar] at h
  have hmap : zscoreList f xs =
      xs.map (fun x => some ((x - xs.sum / xs.length) / f (popVar xs))) := by
    simp [zscoreList, h]
  have hlen : (xs.map (fun x => (x - xs.sum / xs.length) / f (popVar xs))) ≠ [] := by
    simpa using hne
  rw [scoreColMean, optMean, hmap]
  have hfm : (xs.map (fun x => some ((x - xs.sum / xs.length) / f (popVar xs)))).filterMap id
      = xs.map (fun x => (x - xs.sum / xs.length) / f (popVar xs)) := by
    rw [List.filterMap_map]
    show List.filterMap (some ∘ (fun x => (x - xs.sum / xs.length) / f (popVar xs))) xs = _
    rw [List.filterMap_eq_map]
  rw [hfm, listMeanQ_eq _ hlen, sum_map_div_const, sum_map_sub_mean xs hne]
  simp

lemma analyzeDeliveryEfficiency_error (f : ℚ → ℚ) (data : List DeliveryRecord) :
    analyze_delivery_efficiency f data = Except.error
      "Error analyzing delivery efficiency: setting an array element with a sequence. The requested array has an inhomogeneous shape after 1 dimensions." := by
  have hsh : (npMeanArgs f data).map npShape = [none, none, some 3] := by
    rw [npMeanArgs]
    simp [npShape, featureCols]
  have hd : (([none, none, some 3] : List (Option ℕ)).dedup).length = 2 := by
    decide
  rw [analyze_delivery_efficiency, npMean, hsh]
  rw [if_neg (by rw [hd]; omega)]
  rfl

lemma insertLe_perm {α : Type} (le : α → α → Bool) (r : α) (l : List α) :
    (insertLe le r l).Perm (r :: l) := by
  induction l with
  | nil => simp [insertLe]
  | cons s rest ih =>
    rw [insertLe]
    split
    · exact (ih.cons s).trans (List.Perm.swap r s rest)
    · exact List.Perm.refl _

lemma sortLe_perm {α : Type} (le : α → α → Bool) (l : List α) :
    (sortLe le l).Perm l := by
  suffices h : ∀ acc : List α,
      (l.foldl (fun acc r => insertLe le r acc) acc).Perm (acc ++ l) by
    simpa [sortLe] using h []
  induction l with
  | nil => intro acc; simp
  | cons a t ih =>
    intro acc
    rw [List.foldl_cons]
    refine (ih (insertLe le a acc)).trans ?_
    refine (((insertLe_perm le a acc).append_right t).trans ?_)
    exact List.perm_middle.symm

lemma mem_sortByTs (rows : List LocationRow) (a : LocationRow) :
    a ∈ sortByTs rows ↔ a ∈ rows :=
  (sortLe_perm _ rows).mem_iff

lemma length_sortByTs (rows : List LocationRow) :
    (sortByTs rows).length = rows.length :=
  (sortLe_perm _ rows).length_eq

lemma adjSameCount_cons_le (b : LocationRow) (rest : List LocationRow) :
    adjSameCount (b :: rest) ≤ rest.length := by
  induction rest generalizing b with
  | nil => simp [adjSameCount]
  | cons c t ih =>
    have := ih c
    rw [adjSameCount]
    simp only [List.length_cons]
    split <;> omega

lemma allSameVid_of_adjSameCount :
    ∀ l : List LocationRow, adjSameCount l = l.length - 1 →
      ∀ a ∈ l, ∀ c ∈ l, a.vehicle_id = c.vehicle_id := by
  intro l
  induction l with
  | nil => intro _ a ha; exact absurd ha (List.not_mem_nil a)
  | cons b rest ih =>
    cases rest with
    | nil =>
      intro _ a ha c hc
      rw [List.mem_singleton] at ha hc
      rw [ha, hc]
    | cons d t =>
      intro h a ha c hc
      have hle := adjSameCount_cons_le d t
      rw [adjSameCount] at h
      simp only [List.length_cons] at h
      have hbd : b.vehicle_id = d.vehicle_id := by
        by_contra hne
        rw [if_neg hne] at h
        omega
      have hrest : adjSameCount (d :: t) = (d :: t).length - 1 := by
        rw [if_pos hbd] at h
        simp only [List.length_cons]
        omega
      have hall := ih hrest
      have hmem : ∀ x ∈ b :: d :: t, x.vehicle_id = d.vehicle_id := by
        intro x hx
        rcases List.mem_cons.mp hx with hx1 | hx2
        · rw [hx1]; exact hbd
        · exact hall x hx2 d (List.mem_cons_self d t)
      rw [hmem a ha, hmem c hc]

lemma union_all_eq {γ : Type} [DecidableEq γ] (k : γ) :
    ∀ A : List γ, A ≠ [] → (∀ x ∈ A, x = k) →
    ∀ rest : List γ, k ∉ rest → A ∪ rest = k :: rest := by
  intro A
  induction A with
  | nil => intro h; exact absurd rfl h
  | cons x A2 ih =>
    intro _ hall rest hk
    have hx : x = k := hall x (List.mem_cons_self x A2)
    rw [List.cons_union, hx]
    cases A2 with
    | nil =>
      rw [List.nil_union]
      exact List.insert_of_not_mem hk
    | cons y A3 =>
      rw [ih (by simp) (fun z hz => hall z (List.mem_cons_of_mem x hz)) rest hk]
      exact List.insert_of_mem (List.mem_cons_self k rest)

lemma dedup_flatMap_const {γ : Type} [DecidableEq γ] :
    ∀ ks : List γ, ks.Nodup → ∀ g : γ → List ℕ, (∀ k ∈ ks, g k ≠ []) →
    (ks.flatMap (fun k => (g k).map (fun _ => k))).dedup = ks := by
  intro ks
  induction ks with
  | nil => intro _ g _; simp
  | cons k rest ih =>
    intro hnd g hg
    rw [List.flatMap_cons, List.dedup_append]
    have hrest : (rest.flatMap (fun k => (g k).map (fun _ => k))).dedup = rest :=
      ih (List.Nodup.of_cons hnd) g (fun x hx => hg x (List.mem_cons_of_mem k hx))
    rw [hrest]
    refine union_all_eq k _ ?_ ?_ rest ?_
    · simpa using hg k (List.mem_cons_self k rest)
    · intro x hx
      rcases List.mem_map.mp hx with ⟨v, _, hv⟩
      exact hv.symm
    · exact (List.nodup_cons.mp hnd).1

lemma seriesKeys_groupSeries {α : Type} (p : String) (rows : List MetricRow)
    (agg : List ℚ → α) :
    seriesKeys (groupSeries p rows agg) = bucketKeys p rows := by
  have hne : ∀ b ∈ bucketKeys p rows, vehiclesIn p rows b ≠ [] := by
    intro b hb
    rw [bucketKeys] at hb
    rcases List.mem_dedup.mp hb with hmem
    rcases List.mem_map.mp hmem with ⟨r, hr, hrb⟩
    have hrf : r ∈ rows.filter (fun s => bucketOf p s.timestamp == b) := by
      rw [List.mem_filter]
      exact ⟨hr, by simpa using hrb⟩
    intro hnil
    rw [vehiclesIn, List.dedup_eq_nil, List.map_eq_nil_iff] at hnil
    rw [hnil] at hrf
    exact absurd hrf (List.not_mem_nil r)
  rw [seriesKeys, groupSeries, List.map_flatMap]
  have hcomp : ∀ b : ℤ,
      ((vehiclesIn p rows b).map (fun v => ((b, v), agg (valuesIn p rows b v)))).map
        (fun e => e.1.1) = (vehiclesIn p rows b).map (fun _ => b) := by
    intro b
    rw [List.map_map]
    rfl
  calc ((bucketKeys p rows).flatMap (fun b =>
          ((vehiclesIn p rows b).map (fun v => ((b, v), agg (valuesIn p rows b v)))).map
            (fun e => e.1.1))).dedup
      = ((bucketKeys p rows).flatMap (fun b =>
          (vehiclesIn p rows b).map (fun _ => b))).dedup := by
        rw [List.flatMap_congr (fun b _ => hcomp b)]
    _ = bucketKeys p rows :=
        dedup_flatMap_const (bucketKeys p rows) (List.nodup_dedup _)
          (fun b => vehiclesIn p rows b) hne

lemma filter_flatMap_keys {γ : Type} (key : γ → ℤ) :
    ∀ ks : List ℤ, ks.Nodup → ∀ F : ℤ → List γ,
    (∀ k ∈ ks, ∀ e ∈ F k, key e = k) → ∀ b ∈ ks,
    (ks.flatMap F).filter (fun e => key e == b) = F b := by
  intro ks
  induction ks with
  | nil => intro _ F _ b hb; exact absurd hb (List.not_mem_nil b)
  | cons k rest ih =>
    intro hnd F hkey b hb
    rw [List.flatMap_cons, List.filter_append]
    rcases List.mem_cons.mp hb with hbk | hbrest
    · subst hbk
      have h1 : (F b).filter (fun e => key e == b) = F b := by
        rw [List.filter_eq_self]
        intro e he
        simpa using hkey b (List.mem_cons_self b rest) e he
      have h2 : (rest.flatMap F).filter (fun e => key e == b) = [] := by
        rw [List.filter_eq_nil_iff]
        intro e he
        rcases List.mem_flatMap.mp he with ⟨k2, hk2, hek2⟩
        have : key e = k2 := hkey k2 (List.mem_cons_of_mem b hk2) e hek2
        have hne : k2 ≠ b := by
          rintro rfl
          exact (List.nodup_cons.mp hnd).1 hk2
        simp [this, hne]
      rw [h1, h2, List.append_nil]
    · have hne : k ≠ b := by
        rintro rfl
        exact (List.nodup_cons.mp hnd).1 hbrest
      have h1 : (F k).filter (fun e => key e == b) = [] := by
        rw [List.filter_eq_nil_iff]
        intro e he
        have : key e = k := hkey k (List.mem_cons_self k rest) e he
        simp [this, hne]
      rw [h1, List.nil_append]
      exact ih (List.Nodup.of_cons hnd) F
        (fun k2 hk2 => hkey k2 (List.mem_cons_of_mem k hk2)) b hbrest

lemma filter_groupSeries {α : Type} (p : String) (rows : List MetricRow)
    (agg : List ℚ → α) (b : ℤ) (hb : b ∈ bucketKeys p rows) :
    (groupSeries p rows agg).filter (fun e => e.1.1 == b) =
      (vehiclesIn p rows b).map (fun v => ((b, v), agg (valuesIn p rows b v))) := by
  rw [groupSeries]
  exact filter_flatMap_keys (fun e => e.1.1) (bucketKeys p rows)
    (List.nodup_dedup _)
    (fun k => (vehiclesIn p rows k).map (fun v => ((k, v), agg (valuesIn p rows k v))))
    (by
      intro k _ e he
      rcases List.mem_map.mp he with ⟨v, _, hv⟩
      rw [← hv])
    b hb

lemma rollup_groupSeries {α β : Type} (p : String) (rows : List MetricRow)
    (agg : List ℚ → Option α) (agg2 : List α → β) :
    rollupBy agg2 (groupSeries p rows agg) =
      (bucketKeys p rows).map (fun b =>
        (b, agg2 ((vehiclesIn p rows b).filterMap
          (fun v => agg (valuesIn p rows b v))))) := by
  rw [rollupBy, seriesKeys_groupSeries]
  refine List.map_congr_left ?_
  intro b hb
  rw [filter_groupSeries p rows agg b hb, List.filterMap_map]
  rfl

/-- C5 (amended): the outlier filter of process_location_data never reads
options.outlier_z_threshold - the result is identical for any two values of
the option (present or absent), the fixed literal 3 being the only cutoff the
source compares z-scores against; samples whose speed z-score is NaN or has
absolute value at least 3 are dropped, after per-vehicle distance and speed
are computed, and any actual drop then makes the distance column assignment
fail on the shortened frame. -/
theorem C5_threshold_ignored (f : ℚ → ℚ) (rows : List LocationRow)
    (o : Option Bool) (t1 t2 : Option ℚ) :
    process_location_data f rows ⟨o, t1⟩ = process_location_data f rows ⟨o, t2⟩ :=
  rfl

/-- C9: in the speed column of process_location_data, a row whose time_diff
is undefined (no same-vehicle predecessor) or not positive (including
identical timestamps) gets speed exactly 0 without raising, and speed equals
distance / time_diff * 3600 exactly when time_diff is positive. -/
theorem C9_speed_guard (f : ℚ → ℚ) (l : List LocationRow) (i : ℕ) :
    (timeDiffAt l i = none → speedAt f l i = 0) ∧
    (∀ t : ℚ, timeDiffAt l i = some t → t ≤ 0 → speedAt f l i = 0) ∧
    (∀ t : ℚ, timeDiffAt l i = some t → 0 < t →
      speedAt f l i = distAt f l i / t * 3600) := by
  refine ⟨?_, ?_, ?_⟩
  · intro h
    simp [speedAt, h]
  · intro t ht hle
    simp [speedAt, ht, not_lt.mpr hle]
  · intro t ht hpos
    simp [speedAt, ht, hpos]

/-- C9 witness: a concrete two-sample vehicle with identical timestamps has
time_diff exactly 0 and derived speed exactly 0. -/
theorem C9_witness :
    timeDiffAt [⟨1, 0, 0, 0⟩, ⟨1, 0, 1, 1⟩] 1 = some 0 ∧
    speedAt sqrtHat [⟨1, 0, 0, 0⟩, ⟨1, 0, 1, 1⟩] 1 = 0 := by
  have ht : timeDiffAt [⟨1, 0, 0, 0⟩, ⟨1, 0, 1, 1⟩] 1 = some 0 := by
    norm_num [timeDiffAt, prevIdxSameVid, rowAt, List.range_succ]
  exact ⟨ht, (C9_speed_guard sqrtHat _ 1).2.1 0 ht le_rfl⟩

/-- C10: when the remove_outliers key is absent from the options dictionary,
process_location_data behaves exactly as with remove_outliers explicitly true
(the dictionary get defaults to True), and passing remove_outliers explicitly
false runs the pipeline with the outlier filter step skipped. -/
theorem C10_default_outlier_removal (f : ℚ → ℚ) (rows : List LocationRow)
    (t t2 : Option ℚ) :
    process_location_data f rows ⟨none, t⟩ =
      process_location_data f rows ⟨some true, t2⟩ ∧
    process_location_data f rows ⟨some false, t⟩ =
      processSkippingOutlierFilter f rows := by
  constructor
  · rfl
  · by_cases hmask :
      adjSameCount (sortByTs rows) ≠ (sortByTs rows).length - 1 ∧
        (sortByTs rows).length - 1 ≠ 1
    · simp [process_location_data, processSkippingOutlierFilter, hmask,
        keepFlags, List.count_replicate]
    · simp [process_location_data, processSkippingOutlierFilter, hmask,
        keepFlags, List.count_replicate]

/-- C8: calculate_fleet_metrics rejects its input with a validation error
exactly when the metric type is not one of the five recognised metric type
strings or the aggregation period is not one of the four recognised period
strings; the rejection happens in the validation step before any statistic is
computed - the error does not depend on the data - and is surfaced to the
caller as the error result. -/
theorem C8_validation (rows : List MetricRow) (mt p : String) :
    ((∃ msg, calculate_fleet_metrics rows mt p = Except.error msg) ↔
      (mt ∉ validMetricTypes ∨ p ∉ validAggregationPeriods)) ∧
    ((mt ∉ validMetricTypes ∨ p ∉ validAggregationPeriods) →
      ∀ rows2, calculate_fleet_metrics rows mt p =
        calculate_fleet_metrics rows2 mt p) := by
  constructor
  · constructor
    · rintro ⟨msg, hmsg⟩
      by_contra hcon
      push_neg at hcon
      rw [calculate_fleet_metrics, if_neg (not_not_intro hcon.1),
        if_neg (not_not_intro hcon.2)] at hmsg
      exact absurd hmsg (by simp)
    · intro h
      rcases h with h1 | h2
      · exact ⟨_, by rw [calculate_fleet_metrics, if_pos h1]⟩
      · by_cases hmt : mt ∈ validMetricTypes
        · exact ⟨_, by
            rw [calculate_fleet_metrics, if_neg (not_not_intro hmt), if_pos h2]⟩
        · exact ⟨_, by rw [calculate_fleet_metrics, if_pos hmt]⟩
  · intro h rows2
    rcases h with h1 | h2
    · rw [calculate_fleet_metrics, calculate_fleet_metrics, if_pos h1, if_pos h1]
    · by_cases hmt : mt ∈ validMetricTypes
      · rw [calculate_fleet_metrics, calculate_fleet_metrics,
          if_neg (not_not_intro hmt), if_neg (not_not_intro hmt),
          if_pos h2, if_pos h2]
      · rw [calculate_fleet_metrics, calculate_fleet_metrics, if_pos hmt,
          if_pos hmt]

/-- C8 witness: the metric type string speed (not a recognised metric type
value) is rejected identically on two different data frames. -/
theorem C8_witness :
    calculate_fleet_metrics [] "speed" "1D" =
      calculate_fleet_metrics [⟨0, 1, 5⟩] "speed" "1D" :=
  (C8_validation [] "speed" "1D").2 (Or.inl (by decide)) [⟨0, 1, 5⟩]

/-- C2 (amended): a zero-variance column receives NaN z-scores (none) for
every row, not 0 - scipy divides the zero deviations by the zero standard
deviation; since every comparison against NaN is false, such a column flags no
row in detect_anomalies and causes no failure there; a single-element
delivery batch, however, is not scored without error - like every batch it
reaches the ragged np.mean of the overall-score step, whose zero-variance
feature columns contribute only NaN z-scores while the raise comes from the
ragged argument shapes under the pinned numpy 1.24. -/
theorem C2_zero_variance (f : ℚ → ℚ) (n : ℕ) (c : ℚ) (name : String) (t : ℚ)
    (r : DeliveryRecord) :
    zscoreList f (List.replicate n c) = List.replicate n none ∧
    detect_anomalies f [(name, List.replicate n c)] t = [] ∧
    analyze_delivery_efficiency f [r] = Except.error
      "Error analyzing delivery efficiency: setting an array element with a sequence. The requested array has an inhomogeneous shape after 1 dimensions." := by
  refine ⟨zscoreList_replicate f n c, ?_, ?_⟩
  · have hflag : ∀ i, rowFlagged f [(name, List.replicate n c)] t i = false := by
      intro i
      simp only [rowFlagged, absZTable, zscoreList_replicate, List.map_replicate,
        List.getElem?_replicate, zExceeds, List.any_cons, List.any_nil,
        List.map_cons, List.map_nil]
      by_cases h : i < n <;> simp [h]
    rw [detect_anomalies, flaggedIdx]
    have : (List.range (tableNumRows [(name, List.replicate n c)])).filter
        (rowFlagged f [(name, List.replicate n c)] t) = [] := by
      rw [List.filter_eq_nil_iff]
      intro i _
      simp [hflag i]
    rw [this]
    rfl
  · exact analyzeDeliveryEfficiency_error f [r]

/-- C2 counterexample: the constant column 5, 5, 5 receives NaN (none)
z-scores under the shared scipy z-score model, and NaN is not the zero
z-score the claim asserts for every row of a zero-variance column. -/
theorem C2_counterexample :
    zscoreList sqrtHat [5, 5, 5] = [none, none, none] ∧
    (none : Option ℚ) ≠ some (0 : ℚ) := by
  constructor
  · simpa using zscoreList_replicate sqrtHat 3 (5 : ℚ)
  · simp

/-- C7 (amended): the per-group standard deviation entering
calculate_fleet_metrics is the sample standard deviation (pandas default
ddof 1, denominator n - 1), while get_fleet_performance reports the
population standard deviation ($stdDevPop, denominator n); on every group
with at least two samples the former dominates the latter, strictly unless
the group variance is zero, so the two disagree on every non-degenerate
group. -/
theorem C7_sample_vs_population (xs : List ℚ) (v : ℚ)
    (h : sampleVar xs = some v) :
    pandasGroupStd xs = some (Real.sqrt (v : ℝ)) ∧
    mongoStdDevPop xs ≤ Real.sqrt (v : ℝ) ∧
    (v ≠ 0 → mongoStdDevPop xs < Real.sqrt (v : ℝ)) := by
  have hlen : ¬(xs.length ≤ 1) := by
    intro hle
    rw [sampleVar, if_pos hle] at h
    exact absurd h (by simp)
  have hn2 : 2 ≤ xs.length := by omega
  have hv : v = ((xs.map (fun x => (x - xs.sum / xs.length) ^ 2)).sum) /
      ((xs.length : ℚ) - 1) := by
    rw [sampleVar, if_neg hlen] at h
    exact (Option.some_injective _ h).symm
  have hSS : 0 ≤ (xs.map (fun x => (x - xs.sum / xs.length) ^ 2)).sum := by
    apply List.sum_nonneg
    intro y hy
    rcases List.mem_map.mp hy with ⟨x, _, hx⟩
    rw [← hx]
    positivity
  have hnq : (2 : ℚ) ≤ (xs.length : ℚ) := by exact_mod_cast hn2
  have hple : popVar xs ≤ v := by
    rw [popVar, hv]
    rw [div_le_div_iff₀ (by linarith) (by linarith)]
    nlinarith
  have hplt : v ≠ 0 → popVar xs < v := by
    intro hvne
    have hSSpos : 0 < (xs.map (fun x => (x - xs.sum / xs.length) ^ 2)).sum := by
      rcases lt_or_eq_of_le hSS with hlt | heq
      · exact hlt
      · exact absurd (by rw [hv, ← heq, zero_div]) hvne
    rw [popVar, hv]
    rw [div_lt_div_iff₀ (by linarith) (by linarith)]
    nlinarith
  refine ⟨?_, ?_, ?_⟩
  · rw [pandasGroupStd, h]
    rfl
  · rw [mongoStdDevPop]
    apply Real.sqrt_le_sqrt
    exact_mod_cast hple
  · intro hvne
    rw [mongoStdDevPop]
    apply Real.sqrt_lt_sqrt
    · have h0 : (0 : ℚ) ≤ popVar xs := by
        rw [popVar]
        apply div_nonneg hSS
        positivity
      exact_mod_cast h0
    · exact_mod_cast hplt hvne

/-- C7 counterexample: on the two-sample group 0, 6 the standard deviation
entering the aggregation is the square root of the sample variance 18, while
the population standard deviation that get_fleet_performance reports is the
square root of the population variance 9, and the two real numbers differ. -/
theorem C7_counterexample :
    sampleVar [0, 6] = some 18 ∧ popVar [0, 6] = 9 ∧
    pandasGroupStd [0, 6] = some (Real.sqrt 18) ∧
    mongoStdDevPop [0, 6] = Real.sqrt 9 ∧
    Real.sqrt 18 ≠ Real.sqrt 9 := by
  have h1 : sampleVar [0, 6] = some 18 := by
    rw [sampleVar]
    norm_num
  have h2 : popVar [0, 6] = 9 := by
    rw [popVar]
    norm_num
  refine ⟨h1, h2, ?_, ?_, ?_⟩
  · rw [pandasGroupStd, h1]
    norm_num
  · rw [mongoStdDevPop, h2]
    norm_num
  · intro h
    have h9 : Real.sqrt 9 = 3 := by
      rw [show (9 : ℝ) = 3 ^ 2 by norm_num]
      exact Real.sqrt_sq (by norm_num)
    have h18 : (Real.sqrt 18) ^ 2 = 18 := Real.sq_sqrt (by norm_num)
    rw [h, h9] at h18
    norm_num at h18

/-- C7 witness: on the concrete group 0, 6 the aggregation standard deviation
strictly exceeds the population standard deviation of the fleet performance
summary. -/
theorem C7_witness :
    mongoStdDevPop [0, 6] < Real.sqrt ((18 : ℚ) : ℝ) :=
  (C7_sample_vs_population [0, 6] 18 (by rw [sampleVar]; norm_num)).2.2
    (by norm_num)

/-- C6 (amended): every record of detect_anomalies carries anomaly_type equal
to the string "Anomaly in: " followed by the comma-joined names, in original
column order, of exactly the columns whose absolute z-score exceeded the
threshold for that row; rows with no exceedance are excluded entirely, and no
returned record carries the label Normal. -/
theorem C6_anomaly_labels (f : ℚ → ℚ) (table : List (String × List ℚ))
    (t : ℚ) :
    detect_anomalies f table t = (flaggedIdx f table t).map (fun i =>
      ⟨rowValsAt table i, confidenceAt f table i,
       "Anomaly in: " ++ String.intercalate ", " (flaggedColNames f table t i)⟩) ∧
    ∀ rec ∈ detect_anomalies f table t, rec.anomaly_type ≠ "Normal" := by
  have hcat : ∀ i ∈ flaggedIdx f table t,
      (categorizeAnomalies f table t).getD i "Normal" =
        "Anomaly in: " ++ String.intercalate ", " (flaggedColNames f table t i) := by
    intro i hi
    rw [flaggedIdx, List.mem_filter] at hi
    obtain ⟨hrange, hflag⟩ := hi
    have hlt : i < tableNumRows table := List.mem_range.mp hrange
    rw [categorizeAnomalies, List.getD_eq_getElem?_getD, List.getElem?_map,
      List.getElem?_range hlt]
    simp [hflag]
  have hmain : detect_anomalies f table t = (flaggedIdx f table t).map (fun i =>
      ⟨rowValsAt table i, confidenceAt f table i,
       "Anomaly in: " ++ String.intercalate ", " (flaggedColNames f table t i)⟩) := by
    rw [detect_anomalies]
    refine List.map_congr_left ?_
    intro i hi
    rw [hcat i hi]
  refine ⟨hmain, ?_⟩
  intro rec hrec
  rw [hmain] at hrec
  rcases List.mem_map.mp hrec with ⟨i, _, hi⟩
  rw [← hi]
  intro hcontra
  have hcontra2 : "Anomaly in: " ++
      String.intercalate ", " (flaggedColNames f table t i) = "Normal" := hcontra
  have hlen : ("Anomaly in: " ++
      String.intercalate ", " (flaggedColNames f table t i)).length =
      ("Normal" : String).length := by rw [hcontra2]
  rw [String.length_append] at hlen
  have h12 : ("Anomaly in: " : String).length = 12 := by decide
  have h6 : ("Normal" : String).length = 6 := by decide
  omega

/-- C6 counterexample: on a concrete table the single returned record carries
anomaly_type "Anomaly in: speed", which is not the bare comma-joined column
name list "speed" the claim asserts; the square-root table provably agrees
with the true square root on the one radicand used (the column variance 4). -/
theorem C6_counterexample :
    detect_anomalies sqrtHat speedTable (3 / 2) =
      [⟨[5], some 2, "Anomaly in: speed"⟩] ∧
    "Anomaly in: speed" ≠ "speed" ∧
    popVar [0, 0, 0, 0, 5] = 4 ∧ sqrtHat 4 = 2 ∧ (2 : ℚ) ^ 2 = 4 ∧
    (0 : ℚ) ≤ 2 := by
  have hvar : popVar [0, 0, 0, 0, 5] = 4 := by
    rw [popVar]
    norm_num
  have hz : zscoreList sqrtHat [0, 0, 0, 0, 5] =
      [some (-(1 / 2)), some (-(1 / 2)), some (-(1 / 2)), some (-(1 / 2)),
       some 2] := by
    rw [zscoreList]
    norm_num [hvar, sqrtHat]
  have habs : absZTable sqrtHat speedTable =
      [("speed", [some (1 / 2), some (1 / 2), some (1 / 2), some (1 / 2),
        some 2])] := by
    rw [absZTable, speedTable]
    simp [hz]
  have hflg : flaggedIdx sqrtHat speedTable (3 / 2) = [4] := by
    rw [flaggedIdx]
    have h5 : tableNumRows speedTable = 5 := by rw [speedTable]; rfl
    rw [h5, show List.range 5 = [0, 1, 2, 3, 4] from by decide]
    norm_num [rowFlagged, habs, zExceeds, List.filter]
  refine ⟨?_, by decide, hvar, by norm_num [sqrtHat], by norm_num, by norm_num⟩
  rw [detect_anomalies, hflg, List.map_cons, List.map_nil]
  have hrow : rowValsAt speedTable 4 = [5] := by
    rw [rowValsAt, speedTable]
    norm_num
  have hconf : confidenceAt sqrtHat speedTable 4 = some 2 := by
    rw [confidenceAt, habs]
    rfl
  have hcat : (categorizeAnomalies sqrtHat speedTable (3 / 2)).getD 4 "Normal" =
      "Anomaly in: speed" := by
    rw [categorizeAnomalies]
    have h5 : tableNumRows speedTable = 5 := by rw [speedTable]; rfl
    rw [h5, show List.range 5 = [0, 1, 2, 3, 4] from by decide]
    have hflag4 : rowFlagged sqrtHat speedTable (3 / 2) 4 = true := by
      norm_num [rowFlagged, habs, zExceeds]
    have hnames : flaggedColNames sqrtHat speedTable (3 / 2) 4 = ["speed"] := by
      rw [flaggedColNames, habs]
      norm_num [zExceeds, List.filter]
    simp [hflag4, hnames]
    decide
  rw [hrow, hconf, hcat]

/-- C6 witness: the concrete record returned for the flagged row of the table
above does not carry the label Normal. -/
theorem C6_witness :
    (⟨[5], some 2, "Anomaly in: speed"⟩ : AnomalyRecord).anomaly_type ≠
      "Normal" := by
  have hvar : popVar [0, 0, 0, 0, 5] = 4 := by
    rw [popVar]
    norm_num
  have hz : zscoreList sqrtHat [0, 0, 0, 0, 5] =
      [some (-(1 / 2)), some (-(1 / 2)), some (-(1 / 2)), some (-(1 / 2)),
       some 2] := by
    rw [zscoreList]
    norm_num [hvar, sqrtHat]
  have habs : absZTable sqrtHat speedTable =
      [("speed", [some (1 / 2), some (1 / 2), some (1 / 2), some (1 / 2),
        some 2])] := by
    rw [absZTable, speedTable]
    simp [hz]
  have hflg : flaggedIdx sqrtHat speedTable (3 / 2) = [4] := by
    rw [flaggedIdx]
    have h5 : tableNumRows speedTable = 5 := by rw [speedTable]; rfl
    rw [h5, show List.range 5 = [0, 1, 2, 3, 4] from by decide]
    norm_num [rowFlagged, habs, zExceeds, List.filter]
  have hmem : (⟨[5], some 2, "Anomaly in: speed"⟩ : AnomalyRecord) ∈
      detect_anomalies sqrtHat speedTable (3 / 2) := by
    rw [detect_anomalies, hflg, List.map_cons, List.map_nil]
    have hrow : rowValsAt speedTable 4 = [5] := by
      rw [rowValsAt, speedTable]
      norm_num
    have hconf : confidenceAt sqrtHat speedTable 4 = some 2 := by
      rw [confidenceAt, habs]
      rfl
    have hcat : (categorizeAnomalies sqrtHat speedTable (3 / 2)).getD 4
        "Normal" = "Anomaly in: speed" := by
      rw [categorizeAnomalies]
      have h5 : tableNumRows speedTable = 5 := by rw [speedTable]; rfl
      rw [h5, show List.range 5 = [0, 1, 2, 3, 4] from by decide]
      have hflag4 : rowFlagged sqrtHat speedTable (3 / 2) 4 = true := by
        norm_num [rowFlagged, habs, zExceeds]
      have hnames : flaggedColNames sqrtHat speedTable (3 / 2) 4 =
          ["speed"] := by
        rw [flaggedColNames, habs]
        norm_num [zExceeds, List.filter]
      simp [hflag4, hnames]
      decide
    rw [hrow, hconf, hcat]
    exact List.mem_singleton.mpr rfl
  exact (C6_anomaly_labels sqrtHat speedTable (3 / 2)).2 _ hmem

/-- C1 (amended): analyze_delivery_efficiency never returns an
overall_efficiency_score under the pinned numpy 1.24 - for every batch of
delivery records and every square-root function, the np.mean that would
compute the overall efficiency receives the ragged argument list of two
scalars and one length-3 series and raises, so the function surfaces the
wrapped ValueError and no score, inside or outside [0, 100], is ever
produced (the source also contains no clamping logic on the unreachable
rectangular path). -/
theorem C1_score_never_returned (f : ℚ → ℚ) (data : List DeliveryRecord) :
    (npMeanArgs f data).map npShape = [none, none, some 3] ∧
    analyze_delivery_efficiency f data = Except.error
      "Error analyzing delivery efficiency: setting an array element with a sequence. The requested array has an inhomogeneous shape after 1 dimensions." := by
  constructor
  · rw [npMeanArgs]
    simp [npShape, featureCols]
  · exact analyzeDeliveryEfficiency_error f data

/-- C1 counterexample: on the concrete overshoot batch the scorer returns no
overall_efficiency_score in [0, 100] - it returns no score at all: the
on-time and utilization scalars are defined (100 and 300), yet the
overall-score np.mean receives the ragged shapes [scalar, scalar, series of
3] and the function yields the wrapped ragged-array ValueError of the pinned
numpy 1.24 instead of a score. -/
theorem C1_counterexample :
    onTimePercentage overshootBatch = some 100 ∧
    distanceUtilization overshootBatch = some 300 ∧
    (npMeanArgs sqrtHat overshootBatch).map npShape = [none, none, some 3] ∧
    analyze_delivery_efficiency sqrtHat overshootBatch = Except.error
      "Error analyzing delivery efficiency: setting an array element with a sequence. The requested array has an inhomogeneous shape after 1 dimensions." := by
  refine ⟨?_, ?_, ?_, analyzeDeliveryEfficiency_error sqrtHat overshootBatch⟩
  · rw [onTimePercentage, overshootBatch]
    norm_num [listMeanQ]
  · rw [distanceUtilization, overshootBatch]
    norm_num [listMeanQ]
  · rw [npMeanArgs]
    simp [npShape, featureCols]

/-- C4 (amended): a vehicle with exactly one sample never contributes an
error-free empty result: in any batch of at least three samples that
contains a second vehicle, the whole derivation fails with the numpy
boolean-mask assignment error (the adjacent-pair distance array of length at
least two cannot be assigned through the same-vehicle mask); in a two-row
batch pairing it with one sample of a different vehicle - where the
one-element distance array broadcasts and the mask step cannot fail -
remove_outliers false succeeds and returns BOTH rows with speed 0 and
distance 0, so the single-sample vehicle contributes its row rather than an
empty result, while remove_outliers true fails with the pandas column-length
error (the all-NaN speed z-scores drop every row); and for a batch of the
single-sample vehicle alone, remove_outliers false returns its row (speed 0,
distance 0) and remove_outliers true fails with the column-length error. -/
theorem C4_single_sample :
    (∀ (f : ℚ → ℚ) (rows : List LocationRow) (opts : CalcOptions)
      (a c : LocationRow), a ∈ rows → c ∈ rows →
      a.vehicle_id ≠ c.vehicle_id → 3 ≤ rows.length →
      process_location_data f rows opts = Except.error
        "Error processing location data: boolean array indexing assignment mismatch") ∧
    (∀ (f : ℚ → ℚ) (r1 r2 : LocationRow) (t : Option ℚ),
      r1.timestamp ≤ r2.timestamp → r1.vehicle_id ≠ r2.vehicle_id →
      process_location_data f [r1, r2] ⟨some false, t⟩ =
        Except.ok [⟨r1.vehicle_id, r1.timestamp, 0, 0, none⟩,
          ⟨r2.vehicle_id, r2.timestamp, 0, 0, none⟩]) ∧
    (∀ (f : ℚ → ℚ) (r1 r2 : LocationRow) (t : Option ℚ),
      r1.timestamp ≤ r2.timestamp → r1.vehicle_id ≠ r2.vehicle_id →
      process_location_data f [r1, r2] ⟨some true, t⟩ = Except.error
        "Error processing location data: Length of values does not match length of index") ∧
    (∀ (f : ℚ → ℚ) (r : LocationRow) (t : Option ℚ),
      process_location_data f [r] ⟨some false, t⟩ =
        Except.ok [⟨r.vehicle_id, r.timestamp, 0, 0, none⟩]) ∧
    (∀ (f : ℚ → ℚ) (r : LocationRow) (t : Option ℚ),
      process_location_data f [r] ⟨some true, t⟩ = Except.error
        "Error processing location data: Length of values does not match length of index") := by
  refine ⟨?_, ?_, ?_, ?_, ?_⟩
  · intro f rows opts a c ha hc hne hlen3
    have h1 : adjSameCount (sortByTs rows) ≠ (sortByTs rows).length - 1 := by
      intro heq
      exact hne (allSameVid_of_adjSameCount (sortByTs rows) heq a
        ((mem_sortByTs rows a).mpr ha) c ((mem_sortByTs rows c).mpr hc))
    have h2 : (sortByTs rows).length - 1 ≠ 1 := by
      rw [length_sortByTs]
      omega
    simp only [process_location_data]
    rw [if_pos ⟨h1, h2⟩]
  · intro f r1 r2 t hts hne
    have hbeq : (r1.vehicle_id == r2.vehicle_id) = false :=
      beq_eq_false_iff_ne.mpr hne
    have hsort : sortByTs [r1, r2] = [r1, r2] := by
      simp [sortByTs, sortLe, insertLe, hts]
    have hadj : adjSameCount [r1, r2] = 0 := by
      simp [adjSameCount, hne]
    simp only [process_location_data, hsort, hadj]
    norm_num [keepFlags, List.count_replicate]
    simp [List.range_succ, rowAt, speedAt, timeDiffAt, prevIdxSameVid,
      distAt, maskAt, accelAt, List.filter, hbeq]
  · intro f r1 r2 t hts hne
    have hbeq : (r1.vehicle_id == r2.vehicle_id) = false :=
      beq_eq_false_iff_ne.mpr hne
    have hsort : sortByTs [r1, r2] = [r1, r2] := by
      simp [sortByTs, sortLe, insertLe, hts]
    have hadj : adjSameCount [r1, r2] = 0 := by
      simp [adjSameCount, hne]
    have hsp : speedList f [r1, r2] = [0, 0] := by
      simp [speedList, List.range_succ, speedAt, timeDiffAt, prevIdxSameVid,
        rowAt, List.filter, hbeq]
    have hz : zscoreList f [(0 : ℚ), 0] = [none, none] := by
      simpa using zscoreList_replicate f 2 (0 : ℚ)
    simp only [process_location_data, hsort, hadj, keepFlags,
      Option.getD_some, if_true]
    rw [hsp, hz]
    norm_num [List.count]
  · intro f r t
    rfl
  · intro f r t
    have hsp : speedList f (sortByTs [r]) = [0] := rfl
    have hz : zscoreList f [0] = [none] := by
      simpa using zscoreList_replicate f 1 (0 : ℚ)
    simp only [process_location_data, keepFlags, Option.getD_some, if_true]
    rw [hsp, hz]
    norm_num [adjSameCount, sortByTs, sortLe, insertLe, List.count]

/-- C4 counterexample: a three-sample batch holding a single-sample vehicle
next to a two-sample vehicle makes the derivation fail outright, where the
claim asserts an error-free result that simply omits the single-sample
vehicle. -/
theorem C4_counterexample :
    process_location_data sqrtHat
      [⟨1, 0, 0, 0⟩, ⟨2, 10, 0, 0⟩, ⟨2, 20, 0, 0⟩] ⟨none, none⟩ =
      Except.error
        "Error processing location data: boolean array indexing assignment mismatch" ∧
    (Except.error
      "Error processing location data: boolean array indexing assignment mismatch" :
      Except String (List DerivedRow)) ≠ Except.ok [] := by
  constructor
  · have hs : sortByTs [⟨1, 0, 0, 0⟩, ⟨2, 10, 0, 0⟩, ⟨2, 20, 0, 0⟩] =
        [⟨1, 0, 0, 0⟩, ⟨2, 10, 0, 0⟩, ⟨2, 20, 0, 0⟩] := by
      norm_num [sortByTs, sortLe, insertLe]
    simp only [process_location_data, hs]
    norm_num [adjSameCount]
  · simp

/-- C4 witness: the multi-vehicle failure applied at the concrete
three-sample batch. -/
theorem C4_witness :
    process_location_data sqrtHat
      [⟨1, 0, 0, 0⟩, ⟨2, 10, 0, 0⟩, ⟨2, 20, 0, 0⟩] ⟨some true, none⟩ =
      Except.error
        "Error processing location data: boolean array indexing assignment mismatch" :=
  C4_single_sample.1 sqrtHat [⟨1, 0, 0, 0⟩, ⟨2, 10, 0, 0⟩, ⟨2, 20, 0, 0⟩]
    ⟨some true, none⟩ ⟨1, 0, 0, 0⟩ ⟨2, 10, 0, 0⟩ (by simp) (by simp)
    (by decide) (by decide)

/-- C5 counterexample: with an explicit threshold option of 10, every speed
z-score of the concrete ten-sample batch has absolute value at most 3 < 10,
so by the claim no sample would be dropped and the derivation would succeed;
the source instead drops the sample with absolute z-score exactly 3 against
its fixed cutoff 3 and then fails with the length-mismatch error.  The
square-root table provably agrees with the true square root on every
radicand used (0 and 25 for the displacements, the speed variance for the
z-scores). -/
theorem C5_counterexample :
    speedList sqrtHat tenSampleBatch =
      [0, 0, 0, 0, 0, 0, 0, 0, 0, 2783 / 5] ∧
    zscoreList sqrtHat [0, 0, 0, 0, 0, 0, 0, 0, 0, 2783 / 5] =
      [some (-(1 / 3)), some (-(1 / 3)), some (-(1 / 3)), some (-(1 / 3)),
       some (-(1 / 3)), some (-(1 / 3)), some (-(1 / 3)), some (-(1 / 3)),
       some (-(1 / 3)), some 3] ∧
    |(-(1 / 3) : ℚ)| < 10 ∧ |(3 : ℚ)| < 10 ∧
    process_location_data sqrtHat tenSampleBatch ⟨some true, some 10⟩ =
      Except.error
        "Error processing location data: Length of values does not match length of index" ∧
    popVar [0, 0, 0, 0, 0, 0, 0, 0, 0, 2783 / 5] = 69705801 / 2500 ∧
    sqrtHat (69705801 / 2500) = 8349 / 50 ∧
    (8349 / 50 : ℚ) ^ 2 = 69705801 / 2500 ∧ (0 : ℚ) ≤ 8349 / 50 ∧
    sqrtHat 25 = 5 ∧ (5 : ℚ) ^ 2 = 25 ∧ (0 : ℚ) ≤ 5 ∧
    sqrtHat 0 = 0 ∧ (0 : ℚ) ^ 2 = 0 ∧ (0 : ℚ) ≤ 0 := by
  have hs : sortByTs tenSampleBatch = tenSampleBatch := by
    rw [tenSampleBatch]
    norm_num [sortByTs, sortLe, insertLe]
  have hr10 : List.range 10 = [0, 1, 2, 3, 4, 5, 6, 7, 8, 9] := by decide
  have hsp : speedList sqrtHat tenSampleBatch =
      [0, 0, 0, 0, 0, 0, 0, 0, 0, 2783 / 5] := by
    rw [speedList, tenSampleBatch]
    norm_num [hr10, speedAt, timeDiffAt, prevIdxSameVid, rowAt, distAt,
      maskAt, dsqAt, sqrtHat, List.filter, List.range_succ]
  have hvar : popVar [0, 0, 0, 0, 0, 0, 0, 0, 0, 2783 / 5] =
      69705801 / 2500 := by
    rw [popVar]
    norm_num
  have hz : zscoreList sqrtHat [0, 0, 0, 0, 0, 0, 0, 0, 0, 2783 / 5] =
      [some (-(1 / 3)), some (-(1 / 3)), some (-(1 / 3)), some (-(1 / 3)),
       some (-(1 / 3)), some (-(1 / 3)), some (-(1 / 3)), some (-(1 / 3)),
       some (-(1 / 3)), some 3] := by
    rw [zscoreList]
    norm_num [hvar, sqrtHat]
  have habs1 : |(1 / 3 : ℚ)| = 1 / 3 := abs_of_nonneg (by norm_num)
  have habs1n : |(-(1 / 3) : ℚ)| = 1 / 3 := by
    rw [abs_neg]
    exact habs1
  have habs3 : |(3 : ℚ)| = 3 := abs_of_nonneg (by norm_num)
  refine ⟨hsp, hz, by rw [habs1n]; norm_num, by rw [habs3]; norm_num, ?_, hvar,
    by norm_num [sqrtHat], by norm_num, by norm_num,
    by norm_num [sqrtHat], by norm_num, by norm_num,
    by norm_num [sqrtHat], by norm_num, by norm_num⟩
  simp only [process_location_data, hs, keepFlags, Option.getD_some, if_true]
  rw [hsp, hz]
  have hcnt : adjSameCount tenSampleBatch = 9 := by
    rw [tenSampleBatch]
    norm_num [adjSameCount]
  have hlen : tenSampleBatch.length = 10 := by rw [tenSampleBatch]; rfl
  rw [hcnt, hlen]
  simp only [List.map_cons, List.map_nil]
  simp only [habs1, habs1n, habs3]
  norm_num [List.count, List.countP]
  intro hcountP
  exact absurd hcountP (by decide)

/-- C3 (amended): for every bucket of the aggregation result the statistics
are the two-level rollup with per-(bucket, vehicle) statistics computed
first: the bucket mean is the mean of the vehicle means, the bucket median is
the median of the vehicle medians (not their mean), the bucket std is the
mean of the defined vehicle sample standard deviations, the bucket min and
max are the min of the vehicle mins and the max of the vehicle maxes, and
vehicle_count is the number of contributing vehicles, not the sum of raw
sample counts. -/
theorem C3_two_level_rollup (rows : List MetricRow) (p : String) (b : ℤ)
    (hb : b ∈ bucketKeys p rows) :
    (b, listMeanQ ((vehiclesIn p rows b).filterMap
      (fun v => listMeanQ (valuesIn p rows b v)))) ∈ fleetMean p rows ∧
    (b, pandasMedian ((vehiclesIn p rows b).filterMap
      (fun v => pandasMedian (valuesIn p rows b v)))) ∈ fleetMedian p rows ∧
    (b, listMeanR ((vehiclesIn p rows b).filterMap
      (fun v => pandasGroupStd (valuesIn p rows b v)))) ∈ fleetStd p rows ∧
    (b, listMinQ ((vehiclesIn p rows b).filterMap
      (fun v => listMinQ (valuesIn p rows b v)))) ∈ fleetMin p rows ∧
    (b, listMaxQ ((vehiclesIn p rows b).filterMap
      (fun v => listMaxQ (valuesIn p rows b v)))) ∈ fleetMax p rows ∧
    (b, (vehiclesIn p rows b).length) ∈ fleetVehicleCount p rows := by
  refine ⟨?_, ?_, ?_, ?_, ?_, ?_⟩
  · rw [fleetMean, rollup_groupSeries]
    exact List.mem_map_of_mem _ hb
  · rw [fleetMedian, rollup_groupSeries]
    exact List.mem_map_of_mem _ hb
  · rw [fleetStd, rollup_groupSeries]
    exact List.mem_map_of_mem _ hb
  · rw [fleetMin, rollup_groupSeries]
    exact List.mem_map_of_mem _ hb
  · rw [fleetMax, rollup_groupSeries]
    exact List.mem_map_of_mem _ hb
  · rw [fleetVehicleCount, rollup_groupSeries]
    have hlen : ((vehiclesIn p rows b).filterMap
        (fun v => some (((valuesIn p rows b v).length : ℚ)))).length =
        (vehiclesIn p rows b).length := by
      rw [show (fun v => some (((valuesIn p rows b v).length : ℚ))) =
          some ∘ (fun v => (((valuesIn p rows b v).length : ℚ))) from rfl,
        List.filterMap_eq_map, List.length_map]
    rw [← hlen]
    exact List.mem_map_of_mem _ hb

/-- C3 counterexample: on the concrete one-bucket frame with vehicle medians
0, 0 and 9, the bucket median statistic is 0 (the median of the vehicle
medians), not the 3 that the claimed mean of the vehicle medians yields. -/
theorem C3_counterexample :
    fleetMedian "1H" threeVehicleBatch = [(0, some 0)] ∧
    listMeanQ ((vehiclesIn "1H" threeVehicleBatch 0).filterMap
      (fun v => pandasMedian (valuesIn "1H" threeVehicleBatch 0 v))) =
      some 3 ∧
    some (0 : ℚ) ≠ some (3 : ℚ) := by
  have hbk : bucketKeys "1H" threeVehicleBatch = [0] := by decide
  have hveh : vehiclesIn "1H" threeVehicleBatch 0 = [1, 2, 3] := by decide
  have hv1 : valuesIn "1H" threeVehicleBatch 0 1 = [0] := by decide
  have hv2 : valuesIn "1H" threeVehicleBatch 0 2 = [0] := by decide
  have hv3 : valuesIn "1H" threeVehicleBatch 0 3 = [9] := by decide
  have hm0 : pandasMedian [(0 : ℚ)] = some 0 := by
    norm_num [pandasMedian, sortLe, insertLe]
  have hm9 : pandasMedian [(9 : ℚ)] = some 9 := by
    norm_num [pandasMedian, sortLe, insertLe]
  have hmeds : (vehiclesIn "1H" threeVehicleBatch 0).filterMap
      (fun v => pandasMedian (valuesIn "1H" threeVehicleBatch 0 v)) =
      [0, 0, 9] := by
    rw [hveh]
    simp only [List.filterMap_cons, List.filterMap_nil, hv1, hv2, hv3, hm0,
      hm9]
  have houter : pandasMedian [(0 : ℚ), 0, 9] = some 0 := by
    norm_num [pandasMedian, sortLe, insertLe, List.getD]
  refine ⟨?_, ?_, by simp⟩
  · rw [fleetMedian, rollup_groupSeries, hbk, List.map_cons, List.map_nil,
      hmeds, houter]
  · rw [hmeds]
    norm_num [listMeanQ]

/-- C3 witness: the full two-level rollup at the concrete one-bucket frame. -/
theorem C3_witness :
    (0, listMeanQ ((vehiclesIn "1H" threeVehicleBatch 0).filterMap
      (fun v => listMeanQ (valuesIn "1H" threeVehicleBatch 0 v)))) ∈
      fleetMean "1H" threeVehicleBatch ∧
    (0, pandasMedian ((vehiclesIn "1H" threeVehicleBatch 0).filterMap
      (fun v => pandasMedian (valuesIn "1H" threeVehicleBatch 0 v)))) ∈
      fleetMedian "1H" threeVehicleBatch ∧
    (0, listMeanR ((vehiclesIn "1H" threeVehicleBatch 0).filterMap
      (fun v => pandasGroupStd (valuesIn "1H" threeVehicleBatch 0 v)))) ∈
      fleetStd "1H" threeVehicleBatch ∧
    (0, listMinQ ((vehiclesIn "1H" threeVehicleBatch 0).filterMap
      (fun v => listMinQ (valuesIn "1H" threeVehicleBatch 0 v)))) ∈
      fleetMin "1H" threeVehicleBatch ∧
    (0, listMaxQ ((vehiclesIn "1H" threeVehicleBatch 0).filterMap
      (fun v => listMaxQ (valuesIn "1H" threeVehicleBatch 0 v)))) ∈
      fleetMax "1H" threeVehicleBatch ∧
    (0, (vehiclesIn "1H" threeVehicleBatch 0).length) ∈
      fleetVehicleCount "1H" threeVehicleBatch :=
  C3_two_level_rollup threeVehicleBatch "1H" 0 (by decide)
